import Mathlib

/-!
Shallow embedding of `scrapy/log.py` (the Scrapy logging facility with the
politepol snapshot-trace extension).

Conventions of the embedding:
* Python `None`-able values become `Option`; a Twisted event dict becomes the
  structure `EventDict` holding exactly the fields the module reads.  Twisted's
  publisher always supplies `isError`, `system` and `message` (the positional
  argument tuple), so those are non-optional; `message = []` models an empty
  tuple.
* `unicode_to_str(x, encoding)` is modelled by an abstract encoding function
  `enc : String → String` applied to the value.
* Python 2 ordering `None < int = True` is modelled by `pyLtLevel`.
* Exceptions become `Except` / an error component of the result; the module's
  observable side effects (engine construction, connection acquire/release,
  row inserts) are logged in an explicit `TraceState` threaded through
  `snapshot_trace`, mirroring the module-global `trace_engines`.
* `datetime.utcnow()` is a parameter `now : Nat` supplied by the caller, and
  the time string of Twisted's `FileLogObserver.emit` is a parameter
  `timeStr`.
-/

namespace ScrapyLog

/-- Python `logging.DEBUG`. -/
def DEBUG : Int := 10

/-- Python `logging.INFO`. -/
def INFO : Int := 20

/-- Python `logging.WARNING`. -/
def WARNING : Int := 30

/-- Python `logging.ERROR`. -/
def ERROR : Int := 40

/-- Python `logging.CRITICAL`. -/
def CRITICAL : Int := 50

/-- Module constant `SILENT = CRITICAL + 1`. -/
def SILENT : Int := CRITICAL + 1

/-- Module dict `level_names`, as an association list. -/
def level_names : List (Int × String) :=
  [(DEBUG, "DEBUG"), (INFO, "INFO"), (WARNING, "WARNING"),
   (ERROR, "ERROR"), (CRITICAL, "CRITICAL"), (SILENT, "SILENT")]

/-- Python `level_names.get(level, 'NOLEVEL')`, where `level` may be `None`. -/
def levelNameOf (level : Option Int) : String :=
  match level with
  | some l => (level_names.lookup l).getD "NOLEVEL"
  | none => "NOLEVEL"

/-- Python 2 comparison `level < log_level` where `level` may be `None`
(in CPython 2, `None` compares below every integer). -/
def pyLtLevel (level : Option Int) (log_level : Int) : Bool :=
  match level with
  | none => true
  | some l => l < log_level

/-- Request object: the two politepol keys read from `request.meta`
(`meta.get` returns `None` for a missing key). -/
structure Request where
  politepol_snapshot_id : Option Int
  politepol_constrings : Option (List String)
deriving DecidableEq

/-- Twisted log event dict, restricted to the fields `scrapy/log.py` and the
Twisted observers read.  `failure` holds the traceback text of an attached
`Failure`, when one is present. -/
structure EventDict where
  isError : Bool
  logLevel : Option Int
  system : String
  spider : Option String
  message : List String
  why : Option String
  format : Option String
  request : Option Request
  failure : Option String
deriving DecidableEq

/-- Spider block of `_adapt_eventdict`:
`spider = ev.get('spider'); if spider: ev['system'] = unicode_to_str(spider.name, encoding)`. -/
def adaptSpider (enc : String → String) (ev : EventDict) : EventDict :=
  match ev.spider with
  | some sname => { ev with system := enc sname }
  | none => ev

/-- Message block of `_adapt_eventdict`: encode every fragment, and when
`prepend_level` holds prefix the first fragment with `"<LEVELNAME>: "`.
An absent or empty `message` tuple is left untouched (`if message:`). -/
def adaptMessage (enc : String → String) (lvlname : String)
    (prepend_level : Bool) (ev : EventDict) : EventDict :=
  if ev.message ≠ [] then
    let message := ev.message.map enc
    let message :=
      if prepend_level then
        match message with
        | [] => []
        | m0 :: rest => (lvlname ++ ": " ++ m0) :: rest
      else message
    { ev with message := message }
  else ev

/-- Why block of `_adapt_eventdict`: a present, non-empty (`if why:`) string
is encoded and, when `prepend_level` holds, prefixed with `"<LEVELNAME>: "`. -/
def adaptWhy (enc : String → String) (lvlname : String)
    (prepend_level : Bool) (ev : EventDict) : EventDict :=
  match ev.why with
  | some why =>
    if why ≠ "" then
      let why2 := enc why
      let why3 := if prepend_level then lvlname ++ ": " ++ why2 else why2
      { ev with why := some why3 }
    else ev
  | none => ev

/-- Format block of `_adapt_eventdict`: a present, non-empty (`if fmt:`)
string is encoded and, when `prepend_level` holds, prefixed with
`"<LEVELNAME>: "`. -/
def adaptFormat (enc : String → String) (lvlname : String)
    (prepend_level : Bool) (ev : EventDict) : EventDict :=
  match ev.format with
  | some fmt =>
    if fmt ≠ "" then
      let fmt2 := enc fmt
      let fmt3 := if prepend_level then lvlname ++ ": " ++ fmt2 else fmt2
      { ev with format := some fmt3 }
    else ev
  | none => ev

/-- Defaulting step `if ev['isError']: ev.setdefault('logLevel', ERROR)`,
applied to a copy of the caller's dict (`eventDict.copy()`; Lean values are
immutable, so the copy is implicit). -/
def defaultedEvent (ev : EventDict) : EventDict :=
  if ev.isError = true ∧ ev.logLevel = none then
    { ev with logLevel := some ERROR }
  else ev

/-- Level of an event after the isError-to-ERROR defaulting. -/
def defaultedLogLevel (ev : EventDict) : Option Int :=
  (defaultedEvent ev).logLevel

/-- `_adapt_eventdict(eventDict, log_level, encoding, prepend_level)`.
Returns `none` when the event is to be ignored. -/
def adapt_eventdict (enc : String → String) (eventDict : EventDict)
    (log_level : Int) (prepend_level : Bool) : Option EventDict :=
  let ev := defaultedEvent eventDict
  -- ignore non-error messages from outside scrapy
  if ev.system ≠ "scrapy" ∧ ev.isError = false then none
  else if pyLtLevel ev.logLevel log_level then none
  else
    let lvlname := levelNameOf ev.logLevel
    some (adaptFormat enc lvlname prepend_level
      (adaptWhy enc lvlname prepend_level
        (adaptMessage enc lvlname prepend_level
          (adaptSpider enc ev))))

/-- Errors that can escape the embedded code paths. -/
inductive PyErr where
  | keyError (key : String)
  | typeError (msg : String)
  | valueError (msg : String)
  | dbError (eng : String)
deriving DecidableEq

/-- Lookup used by Python `%`-interpolation `fmt % eventDict`: the fields of
the event the embedding carries, rendered as strings. -/
def evLookup (ev : EventDict) (key : String) : Option String :=
  if key = "system" then some ev.system
  else if key = "logLevel" then ev.logLevel.map toString
  else if key = "why" then ev.why
  else if key = "format" then ev.format
  else none

/-- Interpreter for Python `%`-interpolation with a mapping, covering the
`%%` escape and `%(key)s` directives; any other directive or a failed key
lookup yields `none` (in Python an exception, caught by `_safeFormat`).
`fuel` only bounds recursion; `fuel = length` always suffices. -/
def pyFormatAux (lookup : String → Option String) :
    Nat → List Char → Option (List Char)
  | _, [] => some []
  | 0, _ :: _ => none
  | fuel + 1, c :: cs =>
    if c = '%' then
      match cs with
      | [] => none
      | d :: cs2 =>
        if d = '%' then (pyFormatAux lookup fuel cs2).map (fun r => '%' :: r)
        else if d = '(' then
          let key := cs2.takeWhile (fun x => x ≠ ')')
          match cs2.dropWhile (fun x => x ≠ ')') with
          | ')' :: 's' :: rest =>
            match lookup (String.mk key) with
            | some v => (pyFormatAux lookup fuel rest).map (fun r => v.data ++ r)
            | none => none
          | _ => none
        else none
    else (pyFormatAux lookup fuel cs).map (fun r => c :: r)

/-- Twisted `log._safeFormat(fmtString, fmtDict)`: interpolation failures are
swallowed and replaced by a fallback string. -/
def safeFormat (ev : EventDict) (fmt : String) : String :=
  match pyFormatAux (evLookup ev) fmt.data.length fmt.data with
  | some r => String.mk r
  | none => "Invalid format string or unformattable object in log message"

/-- Twisted `log.textFromEventDict(eventDict)`: joined message fragments when
any are present; else the why/traceback text for an error with a failure;
else the interpolated `format`; else `None`. -/
def textFromEventDict (ev : EventDict) : Option String :=
  if ev.message ≠ [] then
    some (String.intercalate " " ev.message)
  else if ev.isError = true ∧ ev.failure.isSome then
    let why :=
      match ev.why with
      | some w => if w ≠ "" then w else "Unhandled Error"
      | none => "Unhandled Error"
    some (why ++ "\n" ++ ev.failure.getD "")
  else
    match ev.format with
    | some fmt => some (safeFormat ev fmt)
    | none => none

/-- Row of the `traces` table.  `message` is `Option` because the column
receives whatever `log.textFromEventDict` produced. -/
structure TraceRow where
  snapshot_id : Int
  code : Int
  message : Option String
  created_at : Nat
  updated_at : Nat
deriving DecidableEq

/-- Observable state of the trace machinery: the module global
`trace_engines` plus logs of every engine construction, connection
acquisition, connection release, and row insert (tagged by engine). -/
structure TraceState where
  trace_engines : Option (List String)
  created : List String
  connected : List String
  closed : List String
  inserted : List (String × TraceRow)
deriving DecidableEq

/-- Module start-up state: `trace_engines = None`, nothing logged. -/
def initialTraceState : TraceState :=
  { trace_engines := none, created := [], connected := [], closed := [], inserted := [] }

/-- Body of the `for engine_instance in trace_engines:` loop of
`snapshot_trace`: acquire a connection, insert (which may raise, modelled by
the oracle `failsAt`), and release the connection in a `finally` on both
paths.  A failure aborts the remaining engines and propagates. -/
def insertAll (failsAt : String → Bool) (row : TraceRow) :
    List String → TraceState → TraceState × Option PyErr
  | [], st => (st, none)
  | e :: es, st =>
    let st1 := { st with connected := st.connected ++ [e] }
    if failsAt e then
      ({ st1 with closed := st1.closed ++ [e] }, some (.dbError e))
    else
      insertAll failsAt row es
        { st1 with
          inserted := st1.inserted ++ [(e, row)],
          closed := st1.closed ++ [e] }

/-- `snapshot_trace(constrings, snapshot_id, code, message)`.  When the
registry is still `None` it is built from the supplied list — one
`engine.create_engine` per connection string — and frozen; iterating a
missing (`None`) list raises `TypeError`.  Then one row, with
`created_at = updated_at = now`, is inserted per engine of the registry. -/
def snapshot_trace (failsAt : String → Bool) (st : TraceState)
    (constrings : Option (List String)) (snapshot_id : Int) (code : Int)
    (message : Option String) (now : Nat) : TraceState × Option PyErr :=
  match st.trace_engines with
  | some engines =>
    insertAll failsAt
      { snapshot_id := snapshot_id, code := code, message := message,
        created_at := now, updated_at := now } engines st
  | none =>
    match constrings with
    | none => (st, some (.typeError "argument of type NoneType is not iterable"))
    | some cs =>
      let st2 := { st with trace_engines := some cs, created := st.created ++ cs }
      insertAll failsAt
        { snapshot_id := snapshot_id, code := code, message := message,
          created_at := now, updated_at := now } cs st2

/-- Arguments of one `snapshot_trace` call, for reasoning about sequences of
calls against the process-lifetime registry. -/
structure TraceCall where
  constrings : List String
  snapshot_id : Int
  code : Int
  message : Option String
  now : Nat
deriving DecidableEq

/-- Run a sequence of failure-free `snapshot_trace` calls, threading the
module-global state. -/
def runCalls : List TraceCall → TraceState → TraceState
  | [], st => st
  | c :: cs, st =>
    runCalls cs
      (snapshot_trace (fun _ => false) st (some c.constrings)
        c.snapshot_id c.code c.message c.now).1

/-- Row that one `snapshot_trace` call stamps for every engine. -/
def rowOf (c : TraceCall) : TraceRow :=
  { snapshot_id := c.snapshot_id, code := c.code, message := c.message,
    created_at := c.now, updated_at := c.now }

instance {ε α : Type} [DecidableEq ε] [DecidableEq α] : DecidableEq (Except ε α) := fun a b =>
  match a, b with
  | .error e1, .error e2 =>
    if h : e1 = e2 then .isTrue (congrArg _ h)
    else .isFalse (fun q => h (Except.error.inj q))
  | .ok a1, .ok a2 =>
    if h : a1 = a2 then .isTrue (congrArg _ h)
    else .isFalse (fun q => h (Except.ok.inj q))
  | .error _, .ok _ => .isFalse (fun q => Except.noConfusion q)
  | .ok _, .error _ => .isFalse (fun q => Except.noConfusion q)

/-- Result of one `ScrapyFileLogObserver._emit` call: the line written to the
stream (if any), the trace state after the call, the returned value or the
escaping exception, and whether `snapshot_trace` was invoked. -/
structure EmitResult where
  written : Option String
  st : TraceState
  result : Except PyErr (Option EventDict)
  traced : Bool
deriving DecidableEq

/-- Python `text.replace("\n", "\n\t")` of Twisted `FileLogObserver.emit`,
written as structural recursion over the characters. -/
def indentNewlines : List Char → List Char
  | [] => []
  | c :: cs =>
    if c = '\n' then '\n' :: '\t' :: indentNewlines cs
    else c :: indentNewlines cs

/-- Line layout of Twisted `FileLogObserver.emit`:
`timeStr + " " + "[%(system)s] %(text)s\n"` with newlines in the text
indented. -/
def observerLine (timeStr : String) (ev : EventDict) (text : String) : String :=
  timeStr ++ " [" ++ ev.system ++ "] " ++ String.mk (indentNewlines text.data) ++ "\n"

/-- `ScrapyFileLogObserver._emit(eventDict)` with observer level `level`:
adapt (with `prepend_level = True`), write via `FileLogObserver.emit` (which
writes nothing when `textFromEventDict` gives `None`), then — when the event
carries a request whose meta has a truthy snapshot id — mutate `ev['format']`
(KeyError when absent), read `ev['logLevel']` (KeyError when absent), and
invoke `snapshot_trace` with the negated-on-error code and the re-rendered
text.  Exceptions from the trace path escape after the line was written. -/
def fileEmit (enc : String → String) (failsAt : String → Bool) (level : Int)
    (st : TraceState) (eventDict : EventDict) (now : Nat) (timeStr : String) :
    EmitResult :=
  match adapt_eventdict enc eventDict level true with
  | none => { written := none, st := st, result := .ok none, traced := false }
  | some ev =>
    let written := (textFromEventDict ev).map (observerLine timeStr ev)
    match ev.request with
    | none => { written := written, st := st, result := .ok (some ev), traced := false }
    | some request =>
      match request.politepol_snapshot_id with
      | none => { written := written, st := st, result := .ok (some ev), traced := false }
      | some sid =>
        if sid = 0 then
          { written := written, st := st, result := .ok (some ev), traced := false }
        else
          let constrings := request.politepol_constrings
          match ev.format with
          | none =>
            { written := written, st := st,
              result := .error (.keyError "format"), traced := false }
          | some fmt =>
            let ev2 := { ev with format := some ("Scrapy: " ++ fmt) }
            match ev2.logLevel with
            | none =>
              { written := written, st := st,
                result := .error (.keyError "logLevel"), traced := false }
            | some lvl =>
              let code := if lvl ≥ ERROR then -lvl else lvl
              match snapshot_trace failsAt st constrings sid code
                  (textFromEventDict ev2) now with
              | (st2, some e) =>
                { written := written, st := st2, result := .error e, traced := true }
              | (st2, none) =>
                { written := written, st := st2, result := .ok (some ev2), traced := true }

/-- `ScrapySyslogObserver._emit(eventDict)`: adapts with
`prepend_level = False` and hands a non-dropped event to Twisted's
`SyslogObserver.emit`; only the adapted event is modelled. -/
def syslogEmit (enc : String → String) (level : Int)
    (eventDict : EventDict) : Option EventDict :=
  adapt_eventdict enc eventDict level false

/-- Python values visible to `_get_log_level`: ints, strings, `None`, and
everything else (functions, classes, modules, dicts …) abstracted by a
description.  (Python 2 `bool` is a subtype of `int` and is subsumed by
`int`.) -/
inductive PyVal where
  | int (n : Int)
  | str (s : String)
  | pyNone
  | other (desc : String)
deriving DecidableEq

/-- Bindings of `globals()` of module `scrapy.log` once the module is loaded
(dunder names omitted): the six level constants are bound to their numeric
values, every other module-level name to a non-level object. -/
def log_module_globals : List (String × PyVal) :=
  [("sys", .other "module"), ("logging", .other "module"),
   ("warnings", .other "module"), ("log", .other "module"),
   ("syslog", .other "module"), ("scrapy", .other "module"),
   ("unicode_to_str", .other "function"), ("overridden_settings", .other "function"),
   ("DEBUG", .int DEBUG), ("INFO", .int INFO), ("WARNING", .int WARNING),
   ("ERROR", .int ERROR), ("CRITICAL", .int CRITICAL), ("SILENT", .int SILENT),
   ("level_names", .other "dict"),
   ("ScrapyFileLogObserver", .other "class"),
   ("engine", .other "module"), ("Boolean", .other "class"),
   ("Column", .other "class"), ("DateTime", .other "class"),
   ("Integer", .other "class"), ("String", .other "class"),
   ("Table", .other "class"), ("Text", .other "class"), ("Time", .other "class"),
   ("select", .other "function"), ("datetime", .other "class"),
   ("declarative_base", .other "function"), ("Base", .other "class"),
   ("traces", .other "Table"), ("trace_engines", .pyNone),
   ("snapshot_trace", .other "function"),
   ("ScrapySyslogObserver", .other "class"),
   ("_adapt_eventdict", .other "function"), ("_get_log_level", .other "function"),
   ("start", .other "function"), ("msg", .other "function"),
   ("err", .other "function"), ("start_from_settings", .other "function"),
   ("scrapy_info", .other "function"), ("start_from_crawler", .other "function")]

/-- `_get_log_level(level_name_or_id)`: an int is returned unchanged; a
string is looked up in the module's `globals()` (KeyError when unbound);
anything else raises `ValueError`. -/
def get_log_level (level_name_or_id : PyVal) : Except PyErr PyVal :=
  match level_name_or_id with
  | .int n => .ok (.int n)
  | .str s =>
    match log_module_globals.lookup s with
    | some v => .ok v
    | none => .error (.keyError s)
  | _ => .error (.valueError "Unknown log level")

/-- What `start` has registered when it returns or raises. -/
inductive Registered where
  | nothingRegistered
  | observersRegistered (level : PyVal)
deriving DecidableEq

/-- First steps of `start(...)`: `loglevel = _get_log_level(loglevel)` runs
before any observer is constructed or registered, so a resolution error
escapes with nothing registered. -/
def start (loglevel : PyVal) : Except PyErr Registered :=
  match get_log_level loglevel with
  | .error e => .error e
  | .ok lv => .ok (.observersRegistered lv)

/-! Concrete fixtures used by witnesses and counterexamples. -/

/-- Event with `isError = True` but an explicit level below WARNING. -/
def wEvC1 : EventDict :=
  { isError := true, logLevel := some DEBUG, system := "outside", spider := none,
    message := ["m"], why := none, format := none, request := none, failure := none }

/-- Non-error event from outside scrapy at CRITICAL level. -/
def wEvC2 : EventDict :=
  { isError := false, logLevel := some CRITICAL, system := "twisted", spider := none,
    message := ["m"], why := none, format := none, request := none, failure := none }

/-- Error event from outside scrapy whose `why` is present but empty. -/
def cEvC5 : EventDict :=
  { isError := true, logLevel := some ERROR, system := "ext", spider := none,
    message := [], why := some "", format := none, request := none, failure := none }

/-- Warning event with all three text fields present and non-empty. -/
def wEvC5 : EventDict :=
  { isError := false, logLevel := some WARNING, system := "scrapy", spider := none,
    message := ["disk low"], why := some "w", format := some "f",
    request := none, failure := none }

/-- Event whose request meta carries a snapshot id but no connection
strings. -/
def cEvC6 : EventDict :=
  { isError := false, logLevel := some INFO, system := "scrapy", spider := none,
    message := [], why := none, format := some "f",
    request := some { politepol_snapshot_id := some 5, politepol_constrings := none },
    failure := none }

/-- Observer call on `cEvC6` against the fresh module state. -/
def c6run : EmitResult :=
  fileEmit (fun s => s) (fun _ => false) DEBUG initialTraceState cEvC6 100 "T"

/-- Event carrying no request at all. -/
def wEvC6a : EventDict :=
  { isError := false, logLevel := some INFO, system := "scrapy", spider := none,
    message := ["plain"], why := none, format := none, request := none, failure := none }

/-- Format-only event whose request meta carries both trace keys. -/
def wEvC6b : EventDict :=
  { isError := false, logLevel := some ERROR, system := "scrapy", spider := none,
    message := [], why := none, format := some "boom",
    request := some { politepol_snapshot_id := some 42,
                      politepol_constrings := some ["db1", "db2"] },
    failure := none }

/-- Message-fragment event with a snapshot id but no `format` field. -/
def cEvC9 : EventDict :=
  { isError := false, logLevel := some ERROR, system := "scrapy", spider := none,
    message := ["hello"], why := none, format := none,
    request := some { politepol_snapshot_id := some 7, politepol_constrings := some ["db"] },
    failure := none }

/-- Observer call on `cEvC9` against the fresh module state. -/
def c9run : EmitResult :=
  fileEmit (fun s => s) (fun _ => false) DEBUG initialTraceState cEvC9 100 "T"

/-- Event carrying both message fragments and a `format` field, plus both
trace meta keys. -/
def cEvC10 : EventDict :=
  { isError := false, logLevel := some ERROR, system := "scrapy", spider := none,
    message := ["hi"], why := none, format := some "f",
    request := some { politepol_snapshot_id := some 7, politepol_constrings := some ["db"] },
    failure := none }

/-- Observer call on `cEvC10` against the fresh module state. -/
def c10run : EmitResult :=
  fileEmit (fun s => s) (fun _ => false) DEBUG initialTraceState cEvC10 100 "T"

/-- Module state with a registry already frozen on two engines. -/
def wStFrozen : TraceState :=
  { trace_engines := some ["db1", "db2"], created := ["db1", "db2"],
    connected := [], closed := [], inserted := [] }

/-- Adapted form of `wEvC5` (level WARNING, `prepend_level = True`). -/
def wEvC5r : EventDict :=
  { wEvC5 with
    message := ["WARNING: disk low"], why := some "WARNING: w",
    format := some "WARNING: f" }

/-- Adapted form of `wEvC6a`. -/
def wEvC6aR : EventDict :=
  { wEvC6a with message := ["INFO: plain"] }

/-- Adapted form of `wEvC6b`. -/
def wEvC6bR : EventDict :=
  { wEvC6b with format := some "ERROR: boom" }

/-- Module state with a registry frozen on three engines, the middle of
which will fail its insert. -/
def wStC7 : TraceState :=
  { trace_engines := some ["ok1", "bad", "ok2"], created := ["ok1", "bad", "ok2"],
    connected := [], closed := [], inserted := [] }

/-- Format-only critical event with both trace meta keys. -/
def wEvC10 : EventDict :=
  { isError := false, logLevel := some CRITICAL, system := "scrapy", spider := none,
    message := [], why := none, format := some "low disk",
    request := some { politepol_snapshot_id := some 9, politepol_constrings := some ["a"] },
    failure := none }

/-- Adapted form of `wEvC10`. -/
def wEvC10r : EventDict :=
  { wEvC10 with format := some "CRITICAL: low disk" }

/-! Helper lemmas about the adaptation steps. -/

theorem adaptSpider_why (enc : String → String) (ev : EventDict) :
    (adaptSpider enc ev).why = ev.why := by
  unfold adaptSpider; cases ev.spider <;> rfl

theorem adaptSpider_format (enc : String → String) (ev : EventDict) :
    (adaptSpider enc ev).format = ev.format := by
  unfold adaptSpider; cases ev.spider <;> rfl

theorem adaptSpider_message (enc : String → String) (ev : EventDict) :
    (adaptSpider enc ev).message = ev.message := by
  unfold adaptSpider; cases ev.spider <;> rfl

theorem adaptMessage_why (enc : String → String) (nm : String) (pl : Bool)
    (ev : EventDict) : (adaptMessage enc nm pl ev).why = ev.why := by
  unfold adaptMessage; split <;> rfl

theorem adaptMessage_format (enc : String → String) (nm : String) (pl : Bool)
    (ev : EventDict) : (adaptMessage enc nm pl ev).format = ev.format := by
  unfold adaptMessage; split <;> rfl

theorem adaptWhy_format (enc : String → String) (nm : String) (pl : Bool)
    (ev : EventDict) : (adaptWhy enc nm pl ev).format = ev.format := by
  unfold adaptWhy
  cases h : ev.why with
  | none => rfl
  | some w => by_cases hw : w ≠ "" <;> simp [hw]

theorem adaptWhy_message (enc : String → String) (nm : String) (pl : Bool)
    (ev : EventDict) : (adaptWhy enc nm pl ev).message = ev.message := by
  unfold adaptWhy
  cases h : ev.why with
  | none => rfl
  | some w => by_cases hw : w ≠ "" <;> simp [hw]

theorem adaptFormat_why (enc : String → String) (nm : String) (pl : Bool)
    (ev : EventDict) : (adaptFormat enc nm pl ev).why = ev.why := by
  unfold adaptFormat
  cases h : ev.format with
  | none => rfl
  | some f => by_cases hf : f ≠ "" <;> simp [hf]

theorem adaptFormat_message (enc : String → String) (nm : String) (pl : Bool)
    (ev : EventDict) : (adaptFormat enc nm pl ev).message = ev.message := by
  unfold adaptFormat
  cases h : ev.format with
  | none => rfl
  | some f => by_cases hf : f ≠ "" <;> simp [hf]

theorem adaptMessage_message (enc : String → String) (nm : String) (pl : Bool)
    (ev : EventDict) (m0 : String) (ms : List String)
    (h : ev.message = m0 :: ms) :
    (adaptMessage enc nm pl ev).message =
      (if pl then nm ++ ": " ++ enc m0 else enc m0) :: ms.map enc := by
  unfold adaptMessage
  rw [h]
  cases pl <;> simp

theorem adaptWhy_why (enc : String → String) (nm : String) (pl : Bool)
    (ev : EventDict) (w : String) (h : ev.why = some w) (hw : w ≠ "") :
    (adaptWhy enc nm pl ev).why =
      some (if pl then nm ++ ": " ++ enc w else enc w) := by
  unfold adaptWhy
  rw [h]
  cases pl <;> simp [hw]

theorem adaptWhy_why_empty (enc : String → String) (nm : String) (pl : Bool)
    (ev : EventDict) (h : ev.why = some "") :
    (adaptWhy enc nm pl ev).why = some "" := by
  unfold adaptWhy
  rw [h]
  simp [h]

theorem adaptFormat_format (enc : String → String) (nm : String) (pl : Bool)
    (ev : EventDict) (f : String) (h : ev.format = some f) (hf : f ≠ "") :
    (adaptFormat enc nm pl ev).format =
      some (if pl then nm ++ ": " ++ enc f else enc f) := by
  unfold adaptFormat
  rw [h]
  cases pl <;> simp [hf]

/-- Inversion: a non-dropped adaptation is exactly the four field steps
applied to the defaulted event. -/
theorem adapt_eventdict_eq_some (enc : String → String) (ev : EventDict)
    (log_level : Int) (pl : Bool) (ev2 : EventDict)
    (h : adapt_eventdict enc ev log_level pl = some ev2) :
    ev2 =
      adaptFormat enc (levelNameOf (defaultedLogLevel ev)) pl
        (adaptWhy enc (levelNameOf (defaultedLogLevel ev)) pl
          (adaptMessage enc (levelNameOf (defaultedLogLevel ev)) pl
            (adaptSpider enc (defaultedEvent ev)))) := by
  simp only [adapt_eventdict] at h
  split at h
  · exact absurd h (by simp)
  · split at h
    · exact absurd h (by simp)
    · exact (Option.some.inj h).symm

/-! Claim theorems. -/

/-- C1: any raw event whose level after the isError-to-ERROR defaulting is
strictly below the configured minimum level is dropped by
`_adapt_eventdict`, whatever `isError` is. -/
theorem c1_below_min_level_dropped (enc : String → String) (ev : EventDict)
    (log_level : Int) (prepend_level : Bool) (L : Int)
    (hL : defaultedLogLevel ev = some L) (hlt : L < log_level) :
    adapt_eventdict enc ev log_level prepend_level = none := by
  have hlv : (defaultedEvent ev).logLevel = some L := hL
  simp only [adapt_eventdict]
  split
  · rfl
  · have hb : pyLtLevel (defaultedEvent ev).logLevel log_level = true := by
      rw [hlv]
      simp [pyLtLevel]
      exact hlt
    simp [hb]

theorem c1_below_min_level_dropped_witness :
    adapt_eventdict (fun s => s) wEvC1 WARNING true = none :=
  c1_below_min_level_dropped (fun s => s) wEvC1 WARNING true DEBUG
    (by decide) (by decide)

/-- C2: a non-error event whose `system` differs from the reserved label
`"scrapy"` is dropped by `_adapt_eventdict` for every minimum level. -/
theorem c2_outside_non_error_dropped (enc : String → String) (ev : EventDict)
    (log_level : Int) (prepend_level : Bool)
    (hE : ev.isError = false) (hS : ev.system ≠ "scrapy") :
    adapt_eventdict enc ev log_level prepend_level = none := by
  have hde : defaultedEvent ev = ev := by
    unfold defaultedEvent
    rw [if_neg]
    intro hc
    rw [hE] at hc
    exact absurd hc.1 (by simp)
  unfold adapt_eventdict
  rw [hde, if_pos ⟨hS, hE⟩]

theorem c2_outside_non_error_dropped_witness :
    adapt_eventdict (fun s => s) wEvC2 DEBUG true = none :=
  c2_outside_non_error_dropped (fun s => s) wEvC2 DEBUG true
    (by decide) (by decide)

/-! Helper lemmas about the trace machinery. -/

theorem insertAll_nofail (row : TraceRow) (es : List String) (st : TraceState) :
    insertAll (fun _ => false) row es st =
      ({ st with
         connected := st.connected ++ es, closed := st.closed ++ es,
         inserted := st.inserted ++ es.map (fun e => (e, row)) }, none) := by
  induction es generalizing st with
  | nil => simp [insertAll]
  | cons e es ih => simp [insertAll, ih, List.append_assoc]

theorem snapshot_trace_frozen_nofail (st : TraceState) (E : List String)
    (hE : st.trace_engines = some E) (cstr : Option (List String))
    (sid code : Int) (msg : Option String) (now : Nat) :
    snapshot_trace (fun _ => false) st cstr sid code msg now =
      ({ st with
         connected := st.connected ++ E, closed := st.closed ++ E,
         inserted := st.inserted ++ E.map (fun e =>
           (e, { snapshot_id := sid, code := code, message := msg,
                 created_at := now, updated_at := now })) }, none) := by
  simp only [snapshot_trace, hE]
  rw [insertAll_nofail]
  simp [hE]

theorem snapshot_trace_first_build (st : TraceState)
    (hN : st.trace_engines = none) (cs : List String)
    (sid code : Int) (msg : Option String) (now : Nat) :
    snapshot_trace (fun _ => false) st (some cs) sid code msg now =
      ({ st with
         trace_engines := some cs, created := st.created ++ cs,
         connected := st.connected ++ cs, closed := st.closed ++ cs,
         inserted := st.inserted ++ cs.map (fun e =>
           (e, { snapshot_id := sid, code := code, message := msg,
                 created_at := now, updated_at := now })) }, none) := by
  simp only [snapshot_trace, hN]
  simp [insertAll_nofail]

theorem runCalls_frozen (ks : List TraceCall) (st : TraceState) (E : List String)
    (hE : st.trace_engines = some E) :
    runCalls ks st =
      { st with
        connected := st.connected ++ ks.flatMap (fun _ => E),
        closed := st.closed ++ ks.flatMap (fun _ => E),
        inserted := st.inserted ++ ks.flatMap (fun k => E.map (fun e => (e, rowOf k))) } := by
  induction ks generalizing st with
  | nil => simp [runCalls]
  | cons k ks ih =>
    simp only [runCalls]
    rw [snapshot_trace_frozen_nofail st E hE]
    rw [ih _ (by simp [hE])]
    simp [rowOf, List.append_assoc]

theorem insertAll_fail (f : String → Bool) (row : TraceRow) (pre : List String)
    (eN : String) (post : List String) (st : TraceState)
    (hpre : ∀ e ∈ pre, f e = false) (hN : f eN = true) :
    insertAll f row (pre ++ eN :: post) st =
      ({ st with
         connected := st.connected ++ (pre ++ [eN]),
         closed := st.closed ++ (pre ++ [eN]),
         inserted := st.inserted ++ pre.map (fun e => (e, row)) },
       some (.dbError eN)) := by
  revert hpre
  induction pre generalizing st with
  | nil =>
    intro _
    simp [insertAll, hN]
  | cons p pre ih =>
    intro hpre
    have hp : f p = false := hpre p (by simp)
    simp only [List.cons_append, insertAll, hp, Bool.false_eq_true, if_false,
      List.append_eq]
    rw [ih _ (fun e he => hpre e (by simp [he]))]
    simp [List.append_assoc]

/-- C3: across any failure-free sequence of `snapshot_trace` calls starting
from the fresh module state, engines are constructed only during the first
call — one per connection string of that call — the registry stays frozen on
that first list, and every call inserts into exactly those engines. -/
theorem c3_registry_frozen_after_first_build (c : TraceCall) (cs : List TraceCall) :
    (runCalls (c :: cs) initialTraceState).created = c.constrings ∧
    (runCalls (c :: cs) initialTraceState).trace_engines = some c.constrings ∧
    (runCalls (c :: cs) initialTraceState).inserted =
      (c :: cs).flatMap (fun k => c.constrings.map (fun e => (e, rowOf k))) := by
  have h1 := snapshot_trace_first_build initialTraceState rfl c.constrings
    c.snapshot_id c.code c.message c.now
  simp only [runCalls, h1]
  rw [runCalls_frozen cs _ c.constrings (by simp)]
  simp [initialTraceState, rowOf]

/-- C4: a failure-free `snapshot_trace` call against a frozen registry
inserts exactly one row per engine, every row carrying the supplied snapshot
id, code and message with `created_at = updated_at` equal to the one capture
timestamp of the call; and the rows persisted through
`ScrapyFileLogObserver._emit` carry `code = -level` when `level ≥ ERROR` and
`code = level` otherwise. -/
theorem c4_one_row_per_engine :
    (∀ (st : TraceState) (E : List String) (cstr : Option (List String))
       (sid code : Int) (msg : Option String) (now : Nat),
       st.trace_engines = some E →
       snapshot_trace (fun _ => false) st cstr sid code msg now =
         ({ st with
            connected := st.connected ++ E, closed := st.closed ++ E,
            inserted := st.inserted ++ E.map (fun e =>
              (e, { snapshot_id := sid, code := code, message := msg,
                    created_at := now, updated_at := now })) }, none)) ∧
    (∀ (enc : String → String) (lvl : Int) (st : TraceState) (ev : EventDict)
       (now : Nat) (tstr : String) (ev2 : EventDict) (req : Request)
       (sid : Int) (fmt : String) (L : Int) (E : List String),
       adapt_eventdict enc ev lvl true = some ev2 →
       ev2.request = some req →
       req.politepol_snapshot_id = some sid → sid ≠ 0 →
       ev2.format = some fmt → ev2.logLevel = some L →
       st.trace_engines = some E →
       (fileEmit enc (fun _ => false) lvl st ev now tstr).st.inserted =
         st.inserted ++ E.map (fun e =>
           (e, { snapshot_id := sid, code := if L ≥ ERROR then -L else L,
                 message := textFromEventDict
                   { ev2 with format := some ("Scrapy: " ++ fmt) },
                 created_at := now, updated_at := now }))) := by
  constructor
  · intro st E cstr sid code msg now hE
    exact snapshot_trace_frozen_nofail st E hE cstr sid code msg now
  · intro enc lvl st ev now tstr ev2 req sid fmt L E hadapt hreq hsid hsid0 hfmt hL hE
    simp only [fileEmit, hadapt, hreq, hsid]
    rw [if_neg hsid0]
    simp only [hfmt, hL]
    rw [snapshot_trace_frozen_nofail st E hE]

theorem c4_one_row_per_engine_witness :
    (snapshot_trace (fun _ => false) wStFrozen (some ["other"]) 42 (-50) (some "m") 7).1.inserted =
      [("db1", { snapshot_id := 42, code := -50, message := some "m",
                 created_at := 7, updated_at := 7 }),
       ("db2", { snapshot_id := 42, code := -50, message := some "m",
                 created_at := 7, updated_at := 7 })] ∧
    (fileEmit (fun s => s) (fun _ => false) DEBUG wStFrozen wEvC6b 100 "T").st.inserted =
      [("db1", { snapshot_id := 42, code := -40, message := some "Scrapy: ERROR: boom",
                 created_at := 100, updated_at := 100 }),
       ("db2", { snapshot_id := 42, code := -40, message := some "Scrapy: ERROR: boom",
                 created_at := 100, updated_at := 100 })] := by
  constructor
  · rw [c4_one_row_per_engine.1 wStFrozen ["db1", "db2"] (some ["other"]) 42 (-50)
      (some "m") 7 rfl]
    decide
  · rw [c4_one_row_per_engine.2 (fun s => s) DEBUG wStFrozen wEvC6b 100 "T"
      { wEvC6b with format := some "ERROR: boom" }
      { politepol_snapshot_id := some 42, politepol_constrings := some ["db1", "db2"] }
      42 "ERROR: boom" ERROR ["db1", "db2"]
      (by decide) (by decide) (by decide) (by decide) (by decide) (by decide) rfl]
    decide

/-- C7: when the insert for one engine of the frozen registry fails, the
error propagates out of `snapshot_trace` (and out of the observer emit),
no insert is attempted for the remaining engines, and the failing engine's
connection — like every acquired connection — is still released. -/
theorem c7_failure_aborts_and_releases :
    (∀ (f : String → Bool) (st : TraceState) (pre post : List String)
       (eN : String) (cstr : Option (List String)) (sid code : Int)
       (msg : Option String) (now : Nat),
       st.trace_engines = some (pre ++ eN :: post) →
       (∀ e ∈ pre, f e = false) → f eN = true →
       snapshot_trace f st cstr sid code msg now =
         ({ st with
            connected := st.connected ++ (pre ++ [eN]),
            closed := st.closed ++ (pre ++ [eN]),
            inserted := st.inserted ++ pre.map (fun e =>
              (e, { snapshot_id := sid, code := code, message := msg,
                    created_at := now, updated_at := now })) },
          some (.dbError eN))) ∧
    (∀ (enc : String → String) (f : String → Bool) (lvl : Int) (st : TraceState)
       (ev : EventDict) (now : Nat) (tstr : String) (ev2 : EventDict)
       (req : Request) (sid : Int) (fmt : String) (L : Int) (st2 : TraceState)
       (e : PyErr),
       adapt_eventdict enc ev lvl true = some ev2 →
       ev2.request = some req →
       req.politepol_snapshot_id = some sid → sid ≠ 0 →
       ev2.format = some fmt → ev2.logLevel = some L →
       snapshot_trace f st req.politepol_constrings sid
         (if L ≥ ERROR then -L else L)
         (textFromEventDict { ev2 with format := some ("Scrapy: " ++ fmt) }) now
         = (st2, some e) →
       fileEmit enc f lvl st ev now tstr =
         { written := (textFromEventDict ev2).map (observerLine tstr ev2),
           st := st2, result := .error e, traced := true }) := by
  constructor
  · intro f st pre post eN cstr sid code msg now hE hpre hN
    simp only [snapshot_trace, hE]
    rw [insertAll_fail f _ pre eN post st hpre hN]
    simp [hE]
  · intro enc f lvl st ev now tstr ev2 req sid fmt L st2 e
      hadapt hreq hsid hsid0 hfmt hL htrace
    simp only [hreq, hL] at htrace
    simp only [fileEmit, hadapt, hreq, hsid]
    rw [if_neg hsid0]
    simp only [hfmt, hL, htrace]

theorem c7_failure_aborts_and_releases_witness :
    (snapshot_trace (fun e => e == "bad") wStC7 (some ["x"]) 1 2 (some "m") 3).1.inserted =
      [("ok1", { snapshot_id := 1, code := 2, message := some "m",
                 created_at := 3, updated_at := 3 })] ∧
    (snapshot_trace (fun e => e == "bad") wStC7 (some ["x"]) 1 2 (some "m") 3).1.connected =
      ["ok1", "bad"] ∧
    (snapshot_trace (fun e => e == "bad") wStC7 (some ["x"]) 1 2 (some "m") 3).1.closed =
      ["ok1", "bad"] ∧
    (snapshot_trace (fun e => e == "bad") wStC7 (some ["x"]) 1 2 (some "m") 3).2 =
      some (.dbError "bad") ∧
    (fileEmit (fun s => s) (fun e => e == "bad") DEBUG wStC7 wEvC6b 100 "T").result =
      .error (.dbError "bad") := by
  have h1 := c7_failure_aborts_and_releases.1 (fun e => e == "bad") wStC7
    ["ok1"] ["ok2"] "bad" (some ["x"]) 1 2 (some "m") 3 rfl (by decide) (by decide)
  have h2 := c7_failure_aborts_and_releases.2 (fun s => s) (fun e => e == "bad")
    DEBUG wStC7 wEvC6b 100 "T" wEvC6bR
    { politepol_snapshot_id := some 42, politepol_constrings := some ["db1", "db2"] }
    42 "ERROR: boom" ERROR
    { wStC7 with
      connected := ["ok1", "bad"], closed := ["ok1", "bad"],
      inserted := [("ok1", { snapshot_id := 42, code := -40,
                             message := some "Scrapy: ERROR: boom",
                             created_at := 100, updated_at := 100 })] }
    (.dbError "bad")
    (by decide) (by decide) (by decide) (by decide) (by decide) (by decide) (by decide)
  rw [h1, h2]
  decide

/-! Helper lemmas about the defaulting step and interpolation. -/

theorem defaultedEvent_message (ev : EventDict) :
    (defaultedEvent ev).message = ev.message := by
  unfold defaultedEvent; split <;> rfl

theorem defaultedEvent_why (ev : EventDict) :
    (defaultedEvent ev).why = ev.why := by
  unfold defaultedEvent; split <;> rfl

theorem defaultedEvent_format (ev : EventDict) :
    (defaultedEvent ev).format = ev.format := by
  unfold defaultedEvent; split <;> rfl

theorem pyFormatAux_no_percent (lookup : String → Option String)
    (cs : List Char) (h : '%' ∉ cs) :
    pyFormatAux lookup cs.length cs = some cs := by
  induction cs with
  | nil => rfl
  | cons c cs ih =>
    have hc : ¬(c = '%') := fun q => h (by rw [q]; exact List.mem_cons_self _ _)
    have h2 : '%' ∉ cs := fun q => h (List.mem_cons_of_mem _ q)
    simp [pyFormatAux, hc, ih h2]

theorem safeFormat_no_percent (ev : EventDict) (fmt : String)
    (h : '%' ∉ fmt.data) : safeFormat ev fmt = fmt := by
  unfold safeFormat
  rw [pyFormatAux_no_percent _ _ h]

theorem textFromEventDict_format_path (ev : EventDict) (fmt : String)
    (hm : ev.message = []) (hnf : ¬(ev.isError = true ∧ ev.failure.isSome = true))
    (hf : ev.format = some fmt) (hp : '%' ∉ fmt.data) :
    textFromEventDict ev = some fmt := by
  unfold textFromEventDict
  rw [hm, hf]
  simp [hnf, safeFormat_no_percent _ _ hp]

/-- C5 (counterexample): an event whose `why` is present but empty reaches
the sinks with `why` unprefixed and unencoded, although `prepend_level` is
true: the adapted `why` is `""`, not `"<LEVELNAME>: "`. -/
theorem c5_counterexample :
    (adapt_eventdict (fun s => s) cEvC5 DEBUG true).bind EventDict.why = some "" ∧
    some "" ≠ some (levelNameOf (defaultedLogLevel cEvC5) ++ ": " ++ (fun s => s) "") := by
  decide

/-- C5 (amended): for a non-dropped adapted event, each of `message` (first
fragment), `why` and `format` that is present AND non-empty is encoded and is
prefixed with `"<LEVELNAME>: "` exactly when `prepend_level` is true; the
syslog observer adapts with `prepend_level = false`. -/
theorem c5_marker_iff_prepend_level (enc : String → String) (ev : EventDict)
    (log_level : Int) (pl : Bool) (ev2 : EventDict)
    (h : adapt_eventdict enc ev log_level pl = some ev2) :
    (∀ m0 ms, ev.message = m0 :: ms →
      ev2.message =
        (if pl then levelNameOf (defaultedLogLevel ev) ++ ": " ++ enc m0 else enc m0)
          :: ms.map enc) ∧
    (∀ w, ev.why = some w → w ≠ "" →
      ev2.why = some (if pl then levelNameOf (defaultedLogLevel ev) ++ ": " ++ enc w
        else enc w)) ∧
    (∀ f, ev.format = some f → f ≠ "" →
      ev2.format = some (if pl then levelNameOf (defaultedLogLevel ev) ++ ": " ++ enc f
        else enc f)) ∧
    (∀ (lvl : Int) (evd : EventDict),
      syslogEmit enc lvl evd = adapt_eventdict enc evd lvl false) := by
  have he := adapt_eventdict_eq_some enc ev log_level pl ev2 h
  refine ⟨?_, ?_, ?_, fun lvl evd => rfl⟩
  · intro m0 ms hm
    rw [he, adaptFormat_message, adaptWhy_message]
    exact adaptMessage_message enc _ pl _ m0 ms
      (by rw [adaptSpider_message, defaultedEvent_message]; exact hm)
  · intro w hw hw0
    rw [he, adaptFormat_why]
    exact adaptWhy_why enc _ pl _ w
      (by rw [adaptMessage_why, adaptSpider_why, defaultedEvent_why]; exact hw) hw0
  · intro f hf hf0
    rw [he]
    exact adaptFormat_format enc _ pl _ f
      (by rw [adaptWhy_format, adaptMessage_format, adaptSpider_format,
              defaultedEvent_format]; exact hf) hf0

theorem c5_marker_iff_prepend_level_witness :
    wEvC5r.message = ["WARNING: disk low"] ∧
    wEvC5r.why = some "WARNING: w" ∧
    wEvC5r.format = some "WARNING: f" ∧
    syslogEmit (fun s => s) DEBUG wEvC5 = adapt_eventdict (fun s => s) wEvC5 DEBUG false := by
  obtain ⟨hm, hw, hf, hs⟩ :=
    c5_marker_iff_prepend_level (fun s => s) wEvC5 DEBUG true wEvC5r (by decide)
  refine ⟨?_, ?_, ?_, hs DEBUG wEvC5⟩
  · rw [hm "disk low" [] rfl]; decide
  · rw [hw "w" rfl (by decide)]; decide
  · rw [hf "f" rfl (by decide)]; decide

/-- C6 (counterexample): an event whose request meta holds a snapshot id but
no connection strings still triggers `snapshot_trace`, which — with the
registry still unbuilt — raises a `TypeError` instead of emitting the event
normally without error. -/
theorem c6_counterexample :
    c6run.traced = true ∧
    c6run.result = .error (.typeError "argument of type NoneType is not iterable") := by
  decide

/-- C6 (amended): the text observer invokes `snapshot_trace` exactly when
the adapted event carries a request whose meta holds a truthy snapshot id
(and the `format`/`logLevel` reads succeed); the connection strings are
passed along unchecked.  When the request or a truthy snapshot id is
missing, the event is emitted normally and no error is raised. -/
theorem c6_trace_on_snapshot_id (enc : String → String) (f : String → Bool)
    (lvl : Int) (st : TraceState) (ev : EventDict) (now : Nat) (tstr : String) :
    (adapt_eventdict enc ev lvl true = none →
      fileEmit enc f lvl st ev now tstr =
        { written := none, st := st, result := .ok none, traced := false }) ∧
    (∀ ev2, adapt_eventdict enc ev lvl true = some ev2 →
      ev2.request = none →
      fileEmit enc f lvl st ev now tstr =
        { written := (textFromEventDict ev2).map (observerLine tstr ev2),
          st := st, result := .ok (some ev2), traced := false }) ∧
    (∀ ev2 req, adapt_eventdict enc ev lvl true = some ev2 →
      ev2.request = some req →
      (req.politepol_snapshot_id = none ∨ req.politepol_snapshot_id = some 0) →
      fileEmit enc f lvl st ev now tstr =
        { written := (textFromEventDict ev2).map (observerLine tstr ev2),
          st := st, result := .ok (some ev2), traced := false }) ∧
    (∀ ev2 req sid fmt L, adapt_eventdict enc ev lvl true = some ev2 →
      ev2.request = some req → req.politepol_snapshot_id = some sid → sid ≠ 0 →
      ev2.format = some fmt → ev2.logLevel = some L →
      (fileEmit enc f lvl st ev now tstr).traced = true) := by
  refine ⟨?_, ?_, ?_, ?_⟩
  · intro h
    simp only [fileEmit, h]
  · intro ev2 h hr
    simp only [fileEmit, h, hr]
  · intro ev2 req h hr hs
    rcases hs with hs | hs
    · simp only [fileEmit, h, hr, hs]
    · simp only [fileEmit, h, hr, hs]
      simp
  · intro ev2 req sid fmt L h hr hs hs0 hf hL
    simp only [fileEmit, h, hr, hs]
    rw [if_neg hs0]
    simp only [hf, hL]
    split <;> rfl

theorem c6_trace_on_snapshot_id_witness :
    fileEmit (fun s => s) (fun _ => false) DEBUG initialTraceState wEvC6a 100 "T" =
      { written := some "T [scrapy] INFO: plain\n", st := initialTraceState,
        result := .ok (some wEvC6aR), traced := false } ∧
    (fileEmit (fun s => s) (fun _ => false) DEBUG initialTraceState wEvC6b 100 "T").traced
      = true := by
  constructor
  · have h := (c6_trace_on_snapshot_id (fun s => s) (fun _ => false) DEBUG
      initialTraceState wEvC6a 100 "T").2.1 wEvC6aR (by decide) (by decide)
    rw [h]
    decide
  · exact (c6_trace_on_snapshot_id (fun s => s) (fun _ => false) DEBUG
      initialTraceState wEvC6b 100 "T").2.2.2 wEvC6bR
      { politepol_snapshot_id := some 42, politepol_constrings := some ["db1", "db2"] }
      42 "ERROR: boom" ERROR
      (by decide) (by decide) (by decide) (by decide) (by decide) (by decide)

/-- C8 (counterexample): the string `"msg"` is not a level name, yet
`_get_log_level` resolves it — via the module `globals()` lookup — to the
module's `msg` function without raising any error, and `start` then
registers observers with that non-level value. -/
theorem c8_counterexample :
    get_log_level (.str "msg") = .ok (.other "function") ∧
    start (.str "msg") = .ok (.observersRegistered (.other "function")) := by
  decide

/-- C8 (amended): `_get_log_level` returns an int unchanged and maps each
symbolic level name to its numeric value; a string bound to no module global
raises `KeyError` (fail-fast, before observers are registered), a value that
is neither int nor string raises `ValueError` — but a string naming any
non-level module global is returned without error. -/
theorem c8_level_resolution :
    (∀ n : Int, get_log_level (.int n) = .ok (.int n)) ∧
    get_log_level (.str "DEBUG") = .ok (.int DEBUG) ∧
    get_log_level (.str "INFO") = .ok (.int INFO) ∧
    get_log_level (.str "WARNING") = .ok (.int WARNING) ∧
    get_log_level (.str "ERROR") = .ok (.int ERROR) ∧
    get_log_level (.str "CRITICAL") = .ok (.int CRITICAL) ∧
    get_log_level (.str "SILENT") = .ok (.int SILENT) ∧
    (∀ s, log_module_globals.lookup s = none →
      get_log_level (.str s) = .error (.keyError s) ∧
      start (.str s) = .error (.keyError s)) ∧
    (∀ d, get_log_level (.other d) = .error (.valueError "Unknown log level") ∧
      start (.other d) = .error (.valueError "Unknown log level")) ∧
    get_log_level .pyNone = .error (.valueError "Unknown log level") := by
  refine ⟨fun n => rfl, by decide, by decide, by decide, by decide, by decide,
    by decide, ?_, ?_, by decide⟩
  · intro s hs
    constructor
    · simp [get_log_level, hs]
    · simp [start, get_log_level, hs]
  · intro d
    exact ⟨rfl, rfl⟩

theorem c8_level_resolution_witness :
    get_log_level (.int 25) = .ok (.int 25) ∧
    get_log_level (.str "BOGUS") = .error (.keyError "BOGUS") ∧
    start (.str "BOGUS") = .error (.keyError "BOGUS") ∧
    get_log_level (.other "dict") = .error (.valueError "Unknown log level") := by
  obtain ⟨hint, _, _, _, _, _, _, hunk, hoth, _⟩ := c8_level_resolution
  exact ⟨hint 25, (hunk "BOGUS" (by decide)).1, (hunk "BOGUS" (by decide)).2,
    (hoth "dict").1⟩

/-- C9: on a message-fragment event whose request meta carries a snapshot id
but which has no `format` field, `ScrapyFileLogObserver._emit` raises
`KeyError('format')` after the text line has already been written; the event
is neither returned nor dropped, and no trace row is persisted. -/
theorem c9_keyerror_after_text_write :
    c9run.written = some "T [scrapy] ERROR: hello\n" ∧
    c9run.result = .error (.keyError "format") ∧
    c9run.st = initialTraceState ∧
    c9run.traced = false := by
  decide

/-- C10 (counterexample): the trace path fires on `cEvC10` and replaces its
`format` with the `"Scrapy: "`-prefixed text, yet the row persisted carries
the joined message fragments — `"ERROR: hi"` — which is not
`"Scrapy: "` followed by the level-prefixed format text. -/
theorem c10_counterexample :
    c10run.traced = true ∧
    c10run.result = .ok (some { cEvC10 with
      message := ["ERROR: hi"], format := some "Scrapy: ERROR: f" }) ∧
    c10run.st.inserted.map (fun p => p.2.message) = [some "ERROR: hi"] ∧
    some "ERROR: hi" ≠ some ("Scrapy: " ++ "ERROR: f") ∧
    (("Scrapy: ".data).isPrefixOf "ERROR: hi".data) = false := by
  decide

/-- C10 (amended): whenever the trace path fires, `ev['format']` is first
replaced by `'Scrapy: '` prepended to it; when the adapted event has no
message fragments (and no failure branch applies), the persisted message is
exactly `"Scrapy: " ++ fmt` — the prefixed, level-prefixed format text —
while the line written to the stream just before renders the format text
without the `"Scrapy: "` marker. -/
theorem c10_scrapy_marker_on_format_path (enc : String → String) (lvl : Int)
    (st : TraceState) (ev : EventDict) (now : Nat) (tstr : String)
    (ev2 : EventDict) (req : Request) (sid : Int) (fmt : String) (L : Int)
    (E : List String)
    (hadapt : adapt_eventdict enc ev lvl true = some ev2)
    (hreq : ev2.request = some req) (hsid : req.politepol_snapshot_id = some sid)
    (hsid0 : sid ≠ 0) (hfmt : ev2.format = some fmt) (hL : ev2.logLevel = some L)
    (hE : st.trace_engines = some E) (hm : ev2.message = [])
    (hnf : ¬(ev2.isError = true ∧ ev2.failure.isSome = true))
    (hp : '%' ∉ fmt.data) :
    fileEmit enc (fun _ => false) lvl st ev now tstr =
      { written := some (observerLine tstr ev2 fmt),
        st := { st with
          connected := st.connected ++ E, closed := st.closed ++ E,
          inserted := st.inserted ++ E.map (fun e =>
            (e, { snapshot_id := sid, code := if L ≥ ERROR then -L else L,
                  message := some ("Scrapy: " ++ fmt),
                  created_at := now, updated_at := now })) },
        result := .ok (some { ev2 with format := some ("Scrapy: " ++ fmt) }),
        traced := true } := by
  have htext : textFromEventDict ev2 = some fmt :=
    textFromEventDict_format_path ev2 fmt hm hnf hfmt hp
  have hp2 : '%' ∉ ("Scrapy: " ++ fmt).data := by
    rw [String.data_append]
    intro hmem
    rcases List.mem_append.mp hmem with hin | hin
    · exact absurd hin (by decide)
    · exact hp hin
  have htext2 : textFromEventDict { ev2 with format := some ("Scrapy: " ++ fmt) }
      = some ("Scrapy: " ++ fmt) :=
    textFromEventDict_format_path _ _ (by simpa using hm) (by simpa using hnf) rfl hp2
  have htrace := snapshot_trace_frozen_nofail st E hE req.politepol_constrings
    sid (if L ≥ ERROR then -L else L)
    (textFromEventDict { ev2 with format := some ("Scrapy: " ++ fmt) }) now
  simp only [hreq, hL] at htrace htext2
  rw [htext2] at htrace
  simp only [fileEmit, hadapt, hreq, hsid]
  rw [if_neg hsid0]
  simp only [hfmt, hL, htext, htext2, Option.map_some]
  simp only [ge_iff_le] at htrace
  rw [htrace]
  simp [hreq, hL]

theorem c10_scrapy_marker_on_format_path_witness :
    fileEmit (fun s => s) (fun _ => false) DEBUG wStFrozen wEvC10 100 "T" =
      { written := some "T [scrapy] CRITICAL: low disk\n",
        st := { wStFrozen with
          connected := ["db1", "db2"], closed := ["db1", "db2"],
          inserted := [("db1", { snapshot_id := 9, code := -50,
                                 message := some "Scrapy: CRITICAL: low disk",
                                 created_at := 100, updated_at := 100 }),
                       ("db2", { snapshot_id := 9, code := -50,
                                 message := some "Scrapy: CRITICAL: low disk",
                                 created_at := 100, updated_at := 100 })] },
        result := .ok (some { wEvC10 with format := some "Scrapy: CRITICAL: low disk" }),
        traced := true } := by
  rw [c10_scrapy_marker_on_format_path (fun s => s) DEBUG wStFrozen wEvC10 100 "T"
    wEvC10r { politepol_snapshot_id := some 9, politepol_constrings := some ["a"] }
    9 "CRITICAL: low disk" CRITICAL ["db1", "db2"]
    (by decide) (by decide) (by decide) (by decide) (by decide) (by decide) rfl
    (by decide) (by decide) (by decide)]
  decide

end ScrapyLog
